import Mathlib

/-!
Verification of the QCUserApp2 classification-and-caching pipeline core.

The Python source (src/backend/{common,scales,materials,text_reading}.py) is
shallowly embedded below.  Python strings are modelled as Lean `String`
(operated on through their `List Char` data, over the ASCII range that the
source manipulates), Python `None`-able values as `Option`, dicts as
association lists or update functions, label confidences as `Int` (every
comparison in the source is order-only and every literal is an integer),
the Rekognition / Bedrock remote services as oracles returning `Except`
(an `Except.error` models a raised exception caught by the stage's
`try/except`), and the on-disk JSON cache as a function from base filename
to an optional record.  JSON serialisation in the source is deterministic
(fixed key order, fixed indentation), so two equal records persist to
byte-identical files; cache equality below therefore models byte-identity.
-/

/-! ## Python string primitives (ASCII fragment used by the source) -/

/-- Python `needle in haystack` (substring containment) on char lists. -/
def pyInL (sep : List Char) : List Char → Bool
  | [] => sep.isPrefixOf ([] : List Char)
  | c :: rest => sep.isPrefixOf (c :: rest) || pyInL sep rest

/-- Python `needle in haystack` on strings. -/
def pyIn (needle haystack : String) : Bool :=
  pyInL needle.data haystack.data

/-- Python `str.lower()` (ASCII). -/
def pyLower (s : String) : String :=
  String.mk (s.data.map Char.toLower)

/-- Python `str.upper()` (ASCII). -/
def pyUpperL (l : List Char) : List Char :=
  l.map Char.toUpper

/-- Python `s[-4:]`: for a string of length < 4 this is the whole string. -/
def last4 (p : String) : String :=
  String.mk (p.data.drop (p.data.length - 4))

/-- Python `s[:-4]` (`filename[:-4]` in the classify stages). -/
def stripLast4 (s : String) : String :=
  String.mk (s.data.take (s.data.length - 4))

/-- `os.path.basename` for POSIX paths: the part after the last `/`. -/
def pyBasename (p : String) : String :=
  String.mk ((p.data.reverse.takeWhile (fun c => c != '/')).reverse)

/-- Python `str.strip()` on the whitespace the source encounters. -/
def pyStripL (l : List Char) : List Char :=
  ((l.dropWhile Char.isWhitespace).reverse.dropWhile Char.isWhitespace).reverse

/-- Split at the first occurrence of `sep` (Python `s.split(sep, 1)` when it
splits; `none` when `sep` does not occur). -/
def splitOnce (sep : List Char) : List Char → Option (List Char × List Char)
  | [] => if sep.isPrefixOf ([] : List Char) then some ([], []) else none
  | c :: rest =>
    if sep.isPrefixOf (c :: rest) then some ([], (c :: rest).drop sep.length)
    else
      match splitOnce sep rest with
      | some (l, r) => some (c :: l, r)
      | none => none

/-- Python `s.splitlines()`, restricted to the `\n`/`\r` separators; a `\r\n`
pair produces one extra empty line, which every caller in the source filters
out with `strip()`. -/
def pySplitLines (l : List Char) : List (List Char) :=
  match l with
  | [] => []
  | _ =>
    let step : Char → List (List Char) → List (List Char) := fun c acc =>
      if c = '\n' || c = '\r' then [] :: acc
      else
        match acc with
        | [] => [[c]]
        | line :: rest => (c :: line) :: rest
    l.foldr step [[]]

/-- Python `s.split(maxsplit=1)` (split on the first whitespace run). -/
def pySplitWs1 (l : List Char) : List (List Char) :=
  let s0 := l.dropWhile Char.isWhitespace
  if s0 = [] then []
  else
    let t1 := s0.takeWhile (fun c => !c.isWhitespace)
    let r := (s0.dropWhile (fun c => !c.isWhitespace)).dropWhile Char.isWhitespace
    if r = [] then [t1] else [t1, r]

/-! ## Data model (common.py) -/

/-- One Rekognition custom label: `{"Name": ..., "Confidence": ...}`.
Geometry is unused by every claim-relevant decision function. -/
structure Label where
  name : String
  confidence : Int
  deriving Repr, DecidableEq

/-- `text_reading` cache value: `{"digit": ..., "flagged": ...}`. -/
structure TextReading where
  digit : String
  flagged : Bool
  deriving Repr, DecidableEq

/-- The unified per-image cache record, in the shape `get_cached_labels`
returns (missing fields already defaulted). -/
structure ImageRecord where
  imageName : String
  scaleLabels : List Label
  scaleClass : Option String
  materialLabels : List Label
  materialClass : Option String
  textReading : Option TextReading
  deriving Repr, DecidableEq

/-- The `json` cache directory: one optional record per base filename. -/
def Cache := String → Option ImageRecord

/-- The all-defaults record `get_cached_labels` returns for a missing file. -/
def zeroRecord (base : String) : ImageRecord :=
  ⟨base, [], none, [], none, none⟩

/-- `common.get_cached_labels`: read the cache file, defaulting every
missing field. -/
def get_cached_labels (cache : Cache) (base : String) : ImageRecord :=
  match cache base with
  | none => zeroRecord base
  | some r => r

/-- `common.save_cached_labels`: read the current record, overwrite exactly
the fields passed as non-`None`, write back. -/
def save_cached_labels (cache : Cache) (base : String)
    (scale_labels : Option (List Label))
    (scale_class : Option String)
    (material_labels : Option (List Label))
    (material_class : Option String)
    (text_reading : Option TextReading) : Cache :=
  let data := get_cached_labels cache base
  let data := match scale_labels with
    | some v => { data with scaleLabels := v }
    | none => data
  let data := match scale_class with
    | some v => { data with scaleClass := some v }
    | none => data
  let data := match material_labels with
    | some v => { data with materialLabels := v }
    | none => data
  let data := match material_class with
    | some v => { data with materialClass := some v }
    | none => data
  let data := match text_reading with
    | some v => { data with textReading := some v }
    | none => data
  fun b => if b = base then some data else cache b

/-- Python truthiness of an optional string (`if material_class:`):
false for `None` and for the empty string. -/
def strTruthy : Option String → Bool
  | none => false
  | some s => s != ""

/-- `p[-4:].lower() in (".jpg", ".jpeg", ".png")`: the extension filter both
classify stages apply to each input path. -/
def extOk (p : String) : Bool :=
  pyLower (last4 p) ∈ [".jpg", ".jpeg", ".png"]

/-- Base cache key derived from a path in the classify stages:
`os.path.basename(path)[:-4]`. -/
def pathBase (p : String) : String :=
  stripLast4 (pyBasename p)

/-- `total = len([p for p in file_paths if p[-4:].lower() in (...)])`. -/
def progressTotal (file_paths : List String) : Nat :=
  (file_paths.filter extOk).length

/-- `common._resolve_image_path` / `text_reading._resolve_image_path`:
first existing candidate among the six extension guesses.  `fs` is the
`os.path.isfile` oracle. -/
def resolve_image_path (fs : String → Bool) (input_folder base : String) :
    Option String :=
  [".jpg", ".jpeg", ".png", ".JPG", ".JPEG", ".PNG"].findSome? fun ext =>
    let candidate := input_folder ++ "/" ++ base ++ ext
    if fs candidate then some candidate else none

/-! ## Scale/device classification (scales.py) -/

namespace Scales

/-- `scales.class_to_dir`: the location routing table. -/
def class_to_dir : List (String × String) := [
  ("6_IT_0", "classified/locations/6 IT"),
  ("6_BE_0", "classified/locations/6 BE"),
  ("6_BE_180", "classified/locations/6 BE"),
  ("6_CA_OAK_0", "classified/locations/6 CA OAK"),
  ("6_CA_WILMINGTON_0", "classified/locations/6 CA WILMINGTON"),
  ("6_CA_WILMINGTON_180", "classified/locations/6 CA WILMINGTON"),
  ("6_ES_180", "classified/locations/6 ES"),
  ("6_ES_0", "classified/locations/6 ES"),
  ("6_FR_0", "classified/locations/6 FR"),
  ("6_GA_0", "classified/locations/6 GA"),
  ("6_GB_90_CW", "classified/locations/6 GB"),
  ("6_GB_0", "classified/locations/6 GB"),
  ("6_GR_0", "classified/locations/6 GR"),
  ("6_HALIFAX_0", "classified/locations/6 HALIFAX"),
  ("6_HALIFAX_180", "classified/locations/6 HALIFAX"),
  ("6_HR_0", "classified/locations/6 HR"),
  ("6_WA_0", "classified/locations/6 WA"),
  ("6_PL_0", "classified/locations/6 PL"),
  ("6_NJ_NY_0", "classified/locations/6 NJ NY"),
  ("6_VANCOUVER_0", "classified/locations/6 VANCOUVER"),
  ("6_NL_0", "classified/locations/6 NL"),
  ("6_NEW_SCALES_0", "classified/locations/6 NEW SCALES"),
  ("9_WA_0", "classified/trashLocations/9 WA"),
  ("9_TW_0", "classified/trashLocations/9 TW"),
  ("9_CALIFORNIA_0", "classified/trashLocations/9 CALIFORNIA"),
  ("9_EU_0", "classified/trashLocations/9 EU"),
  ("9_GA_0", "classified/trashLocations/9 GA"),
  ("9_JAPAN_0", "classified/trashLocations/9 JAPAN"),
  ("9_KR_0", "classified/trashLocations/9 KR"),
  ("9_NJ_NY_0", "classified/trashLocations/9 NJ NY"),
  ("9_OAK_0", "classified/trashLocations/9 OAK"),
  ("9_OAK_90_CCW", "classified/trashLocations/9 OAK"),
  ("9_OAK_180", "classified/trashLocations/9 OAK"),
  ("9_VANCOUVER_0", "classified/trashLocations/9 VANCOUVER"),
  ("9_NEW_SCALES_0", "classified/trashLocations/9 NEW SCALES"),
  ("unknown_device", "classified/unknown_device")]

/-- `scales.material_devices`. -/
def material_devices : List String := ["7_MOISTURE", "NEW_MOISTURE", "RADIATION"]

/-- `scales.extras`. -/
def extras : List String :=
  ["FLOOR", "OCC_PAPER", "MIX_PAPER", "WHITE_PAPER", "NON_PAPER_MATERIAL", "HAND"]

/-- `scales._prefix_match(target, prefix_list)`: Python `i in target` is a
substring test, so this is "some element occurs as a substring of target". -/
def substrMatch (target : String) (lst : List String) : Bool :=
  lst.any (fun i => pyIn i target)

/-- The single scan loop of `scales._classify_name`, threading
`(max_confidence, max_label, screen_found)`. -/
def classifyScan : List Label → Int → Option String → Bool →
    Int × Option String × Bool
  | [], mc, ml, sf => (mc, ml, sf)
  | l :: rest, mc, ml, sf =>
    if pyIn "LCD_SCREEN" l.name then classifyScan rest mc ml true
    else if l.name ∈ extras then classifyScan rest mc ml sf
    else if (class_to_dir.lookup l.name).isSome || substrMatch l.name material_devices then
      if l.confidence > mc then classifyScan rest l.confidence (some l.name) sf
      else classifyScan rest mc ml sf
    else classifyScan rest mc ml sf

/-- `scales._classify_name(labels)`. -/
def classify_name (labels : List Label) : String :=
  let scan := classifyScan labels 0 none false
  match scan.2.1 with
  | none => if scan.2.2 then "unknown_device" else "next_stage"
  | some max_label =>
    if substrMatch max_label material_devices then
      (material_devices.find? (fun d => pyIn d max_label)).getD max_label
    else max_label

/-- Result of `classify_scales`: final cache, the `material_device_list`
dict, the `toNextStage` list, and the paths for which the remote label
service was invoked (successfully or not). -/
structure ScalesOut where
  cache : Cache
  dev : String → Option String
  toNextStage : List String
  calls : List String

/-- `scales.classify_scales`.  `svc` is the `show_custom_labels` oracle;
`Except.error` models a raised exception, handled by the stage's
`try/except` (orientation fix and compression are pure preprocessing with
no cache or output effect and are folded into the oracle). -/
def classify_scales (svc : String → Except String (List Label)) :
    List String → Cache → (String → Option String) → ScalesOut
  | [], cache, dev => ⟨cache, dev, [], []⟩
  | p :: rest, cache, dev =>
    if extOk p = false then classify_scales svc rest cache dev
    else
      let base := pathBase p
      let cached := get_cached_labels cache base
      if cached.scaleLabels ≠ [] then
        -- cached branch: reuse labels, rewrite scale_class only
        let result := classify_name cached.scaleLabels
        let cache1 := save_cached_labels cache base none (some result) none none none
        let ns := if result = "next_stage" then [p]
          else if result ∈ material_devices then [p] else []
        let dev1 := if result ≠ "next_stage" ∧ result ∈ material_devices then
            (fun q => if q = p then some result else dev q)
          else dev
        let r := classify_scales svc rest cache1 dev1
        ⟨r.cache, r.dev, ns ++ r.toNextStage, r.calls⟩
      else
        match svc p with
        | Except.error _ =>
          -- `except Exception`: log and continue, no write, no forward
          let r := classify_scales svc rest cache dev
          ⟨r.cache, r.dev, r.toNextStage, p :: r.calls⟩
        | Except.ok labels =>
          let result := classify_name labels
          let ns := if result = "next_stage" then [p]
            else if result ∈ material_devices then [p] else []
          let dev1 := if result ≠ "next_stage" ∧ result ∈ material_devices then
              (fun q => if q = p then some result else dev q)
            else dev
          let cache1 := save_cached_labels cache base (some labels) (some result) none none none
          let r := classify_scales svc rest cache1 dev1
          ⟨r.cache, r.dev, ns ++ r.toNextStage, p :: r.calls⟩

end Scales

/-! ## Material classification (materials.py) -/

namespace Materials

/-- `materials.cf_thrsd_dict`: per-label confidence thresholds. -/
def cf_thrsd_dict : List (String × Int) := [
  ("OCC_inventory", 55),
  ("OCC_closeup", 55),
  ("OCC_scale", 60),
  ("OCC_unpacking", 55),
  ("MIX_inventory", 70),
  ("MIX_closeup", 55),
  ("MIX_scale", 70),
  ("WHITE_closeup", 55),
  ("WHITE_inventory", 55),
  ("WHITE_scale", 55),
  ("WHITE_unpacking", 55),
  ("newWatermeter", 99),
  ("oldWatermeter", 99),
  ("radiometer", 99),
  ("sign", 55),
  ("floor", 55)]

/-- `materials.class_to_dir`: the material routing table. -/
def class_to_dir : List (String × String) := [
  ("OCC - inventory", "classified/1.堆場 4070-10 OCC"),
  ("OCC - closeup", "classified/2.貨包 4070-10 OCC"),
  ("OCC - radiometer - closeup", "classified/4.輻射儀貨包 4070-10 OCC"),
  ("OCC - scale", "classified/5.地面秤重 4070-10 OCC"),
  ("OCC - newWatermeter", "classified/7.新款水分儀 4070-10 OCC"),
  ("OCC - oldWatermeter", "classified/7.水分儀 4070-10 OCC"),
  ("OCC - unpacking", "classified/8.拆包 4070-10 OCC"),
  ("MIX - inventory", "classified/1.堆場 4070-30 MIX"),
  ("MIX - closeup", "classified/2.貨包 4070-30 MIX"),
  ("MIX - radiometer - closeup", "classified/4.輻射儀貨包 4070-30 MIX"),
  ("MIX - scale", "classified/5.地面秤重 4070-30 MIX"),
  ("MIX - newWatermeter", "classified/7.新款水分儀 4070-30 MIX"),
  ("MIX - oldWatermeter", "classified/7.水分儀 4070-30 MIX"),
  ("MIX - unpacking", "classified/8.拆包 4070-30 MIX"),
  ("WHITE - inventory", "classified/1.堆場 4070-20 WHITE"),
  ("WHITE - closeup", "classified/2.貨包 4070-20 WHITE"),
  ("WHITE - radiometer - closeup", "classified/4.輻射儀貨包 4070-20 WHITE"),
  ("WHITE - scale", "classified/5.地面秤重 4070-20 WHITE"),
  ("WHITE - newWatermeter", "classified/7.新款水分儀 4070-20 WHITE"),
  ("WHITE - oldWatermeter", "classified/7.水分儀 4070-20 WHITE"),
  ("WHITE - unpacking", "classified/8.拆包 4070-20 WHITE"),
  ("radiometer - floor", "classified/4. 輻射儀地面"),
  ("unknown", "classified/unknown")]

/-- `materials.material_device_translate`. -/
def material_device_translate : List (String × String) := [
  ("7_MOISTURE", "oldWatermeter"),
  ("NEW_MOISTURE", "newWatermeter"),
  ("RADIATION", "radiometer")]

/-- The `material_locations` group inside `materials._classify_one`. -/
def material_locations : List String := [
  "OCC_inventory", "OCC_closeup", "OCC_scale", "OCC_unpacking",
  "WHITE_inventory", "WHITE_closeup", "WHITE_scale", "WHITE_unpacking",
  "MIX_inventory", "MIX_closeup", "MIX_scale"]

/-- The `objects` group inside `materials._classify_one`. -/
def objects : List String := ["sign", "radiometer", "oldWatermeter", "newWatermeter"]

/-- The `extras_list` group inside `materials._classify_one`. -/
def extras_list : List String := ["floor"]

/-- `cf_thrsd_dict.get(name, 0)`. -/
def thrsd (name : String) : Int :=
  (cf_thrsd_dict.lookup name).getD 0

/-- State threaded through the strict-threshold scan of `_classify_one`. -/
structure ScanSt where
  pred_material : Option String
  pred_object : String
  pred_extra : List String
  material_cf : Int
  object_cf : Int
  deriving Repr, DecidableEq

/-- The first (strict-threshold) loop of `materials._classify_one`. -/
def classifyScan : List Label → ScanSt → ScanSt
  | [], st => st
  | l :: rest, st =>
    if l.name ∈ material_locations ∧ l.confidence > thrsd l.name ∧
        l.confidence > st.material_cf then
      classifyScan rest { st with material_cf := l.confidence, pred_material := some l.name }
    else if l.name ∈ objects ∧ l.confidence > thrsd l.name ∧
        l.confidence > st.object_cf then
      classifyScan rest { st with object_cf := l.confidence, pred_object := l.name }
    else if l.name ∈ extras_list ∧ l.confidence > thrsd l.name then
      classifyScan rest { st with pred_extra := st.pred_extra ++ ["floor"] }
    else classifyScan rest st

/-- The relaxed fallback loop of `materials._classify_one` (runs when the
strict pass found no material-group winner); note the second `if` compares
against the possibly just-updated `material_cf`. -/
def fallbackScan : List Label → Option String → List String → Int →
    Option String × List String
  | [], pm, pe, _ => (pm, pe)
  | l :: rest, pm, pe, cf =>
    let upd := l.name ∈ material_locations ∧ l.confidence > cf
    let pm1 := if upd then some l.name else pm
    let cf1 := if upd then l.confidence else cf
    let pe1 := if l.name = "floor" ∧ l.confidence > cf1 then pe ++ ["floor"] else pe
    fallbackScan rest pm1 pe1 cf1

/-- `materials._classify_one(labels)`:
`(pred_material, pred_object, pred_extra)`. -/
def classify_one (labels : List Label) : Option String × String × List String :=
  let st := classifyScan labels ⟨none, "", [], 0, 0⟩
  if st.pred_material = none then
    let fb := fallbackScan labels none st.pred_extra 0
    (fb.1, st.pred_object, fb.2)
  else (st.pred_material, st.pred_object, st.pred_extra)

/-- `pred_material.split("_")[0]` (the first component of a single-character
split is everything before the first underscore). -/
def matStem (pm : String) : String :=
  String.mk (pm.data.takeWhile (fun c => c != '_'))

/-- `materials._classify_name(pred_material, pred_object, pred_extra)`. -/
def classify_name (pred_material : Option String) (pred_object : String)
    (pred_extra : List String) : String :=
  if strTruthy pred_material = false then "unknown"
  else
    let pm := pred_material.getD ""
    if pyIn "Watermeter" pred_object then matStem pm ++ " - " ++ pred_object
    else if pyIn "radiometer" pred_object then
      if "floor" ∈ pred_extra then "radiometer - floor"
      else matStem pm ++ " - " ++ "radiometer - closeup"
    else if pyIn "closeup" pm ∧ pyIn "sign" pred_object then
      matStem pm ++ " - " ++ "closeup"
    else if pyIn "scale" pm ∧ pyIn "sign" pred_object then
      matStem pm ++ " - " ++ "scale"
    else if pyIn "inventory" pm ∧ pyIn "sign" pred_object then
      matStem pm ++ " - " ++ "inventory"
    else matStem pm ++ " - " ++ "unpacking"

/-- Result of `classify_materials`: final cache and the paths for which the
remote label service was invoked. -/
structure MaterialsOut where
  cache : Cache
  calls : List String

/-- `materials.classify_materials`.  `svc` is the `show_custom_labels`
oracle; `material_device_list` is the dict handed over from the scale
stage. -/
def classify_materials (svc : String → Except String (List Label))
    (material_device_list : String → Option String) :
    List String → Cache → MaterialsOut
  | [], cache => ⟨cache, []⟩
  | p :: rest, cache =>
    if extOk p = false then classify_materials svc material_device_list rest cache
    else
      let base := pathBase p
      let cached := get_cached_labels cache base
      if cached.materialLabels ≠ [] then
        -- `pass  # already classified`
        classify_materials svc material_device_list rest cache
      else
        match svc p with
        | Except.error _ =>
          let r := classify_materials svc material_device_list rest cache
          ⟨r.cache, p :: r.calls⟩
        | Except.ok labels =>
          let t := classify_one labels
          let po := match material_device_list p with
            | some d => (material_device_translate.lookup d).getD t.2.1
            | none => t.2.1
          let result := classify_name t.1 po t.2.2
          let cache1 := save_cached_labels cache base none none (some labels) (some result) none
          let r := classify_materials svc material_device_list rest cache1
          ⟨r.cache, p :: r.calls⟩

end Materials

/-! ## Text-reading enrichment (text_reading.py) -/

namespace TextReading0

/-- `TEXT_READING_THRESHOLDS`. -/
def TEXT_READING_THRESHOLDS : List (String × Int) := [
  ("sign", 55),
  ("oldWatermeter", 50),
  ("newWatermeter", 50),
  ("radiometer", 50),
  ("LCD_SCREEN", 60)]

/-- Per-label test of the `scale_labels` loop in `_has_target_label`:
an `LCD_SCREEN*` name at confidence ≥ 60, or a thresholded name at or
above its threshold. -/
def scaleLabelHit (l : Label) : Bool :=
  ("LCD_SCREEN".data.isPrefixOf l.name.data && decide (l.confidence ≥ 60)) ||
  (match TEXT_READING_THRESHOLDS.lookup l.name with
   | some t => decide (l.confidence ≥ t)
   | none => false)

/-- Per-label test of the `material_labels` loop in `_has_target_label`
(no `startswith` check there). -/
def materialLabelHit (l : Label) : Bool :=
  match TEXT_READING_THRESHOLDS.lookup l.name with
  | some t => decide (l.confidence ≥ t)
  | none => false

/-- `text_reading._has_target_label(cached)`. -/
def has_target_label (cached : ImageRecord) : Bool :=
  cached.scaleLabels.any scaleLabelHit || cached.materialLabels.any materialLabelHit

/-- `lines = [ln.strip() for ln in raw_text.splitlines() if ln.strip()]`
followed by `lines[-1] if lines else ""`. -/
def lastNonEmptyLine (raw : String) : List Char :=
  let lines := ((pySplitLines raw.data).map pyStripL).filter (fun ln => ln ≠ [])
  lines.getLastD []

/-- The part of `_parse_text_reading_output` operating on the last
non-empty line. -/
def parseLast (last : List Char) : String × Bool :=
  if pyInL " - ".data last = false then ("", false)
  else
    match splitOnce " - ".data last with
    | none => ("", false)
    | some (left, right) =>
      let digit := pyStripL left
      let digit :=
        if "HSCODE".data.isPrefixOf (pyUpperL digit) then
          match pySplitWs1 digit with
          | [_, p2] => p2
          | _ => []
        else digit
      let flagged_str := pyStripL right |>.map Char.toLower
      let flagged := pyInL "flagged".data flagged_str
      (String.mk digit, flagged)

/-- `text_reading._parse_text_reading_output(raw_text)`. -/
def parse_text_reading_output (raw_text : String) : String × Bool :=
  if raw_text = "" then ("", false)
  else parseLast (lastNonEmptyLine raw_text)

/-- Result of `add_text_reading_to_jsons`: final cache and the resolved
image paths for which the Bedrock VLM was invoked. -/
structure TextOut where
  cache : Cache
  calls : List String

/-- `text_reading.add_text_reading_to_jsons`.  `basenames` is the listing
of `output_path/json`; `fs` the `os.path.isfile` oracle; `vlm` the whole
crop-compress-converse step keyed by the resolved image path (the prompt
and model id are fixed for the run), with `Except.error` modelling any
exception inside the per-image `try` block. -/
def add_text_reading_to_jsons (vlm : String → Except String String)
    (fs : String → Bool) (input_folder : String) :
    List String → Cache → TextOut
  | [], cache => ⟨cache, []⟩
  | base :: rest, cache =>
    let cached := get_cached_labels cache base
    if cached.textReading ≠ none then
      -- skip: already has text_reading
      add_text_reading_to_jsons vlm fs input_folder rest cache
    else if has_target_label cached = false then
      -- skip: no target labels
      add_text_reading_to_jsons vlm fs input_folder rest cache
    else
      match resolve_image_path fs input_folder base with
      | none =>
        -- skip: image not found
        add_text_reading_to_jsons vlm fs input_folder rest cache
      | some img_path =>
        match vlm img_path with
        | Except.error _ =>
          -- exception: logged, record left without text_reading
          let r := add_text_reading_to_jsons vlm fs input_folder rest cache
          ⟨r.cache, img_path :: r.calls⟩
        | Except.ok raw =>
          let parsed := parse_text_reading_output raw
          let cache1 := save_cached_labels cache base none none none none
            (some ⟨parsed.1, parsed.2⟩)
          let r := add_text_reading_to_jsons vlm fs input_folder rest cache1
          ⟨r.cache, img_path :: r.calls⟩

end TextReading0

/-! ## Dispatcher (common.copy_images_to_classified_folders) and pipeline -/

/-- The destination-selection step of `copy_images_to_classified_folders`
for one cached record: `some subdir` when the image is copied under
`subdir`, `none` when it is skipped with "no copy destination". -/
def copy_destination (material_class_to_dir scale_class_to_dir : List (String × String))
    (cached : ImageRecord) : Option String :=
  if strTruthy cached.materialClass then
    some ((material_class_to_dir.lookup (cached.materialClass.getD "")).getD
      "classified/unknown")
  else if strTruthy cached.scaleClass &&
      (scale_class_to_dir.lookup (cached.scaleClass.getD "")).isSome then
    scale_class_to_dir.lookup (cached.scaleClass.getD "")
  else none

/-- Result of one full pipeline run (`run_classification_pipeline`):
final cache plus the remote calls each stage issued.  The dispatcher
performs no cache writes and no remote calls. -/
structure PipelineOut where
  cache : Cache
  scaleCalls : List String
  materialCalls : List String
  vlmCalls : List String

/-- `display.streamlit_ui.run_classification_pipeline`: scales, then
materials over `toNextStage` with the device dict, then text reading over
the cache listing. -/
def run_pipeline (svc1 svc2 : String → Except String (List Label))
    (vlm : String → Except String String) (fs : String → Bool)
    (input_folder : String) (files basenames : List String)
    (cache : Cache) : PipelineOut :=
  let s := Scales.classify_scales svc1 files cache (fun _ => none)
  let m := Materials.classify_materials svc2 s.dev s.toNextStage s.cache
  let t := TextReading0.add_text_reading_to_jsons vlm fs input_folder basenames m.cache
  ⟨t.cache, s.calls, m.calls, t.calls⟩

/-! ## Theorems -/

/-- Claim C2: for every image record and every cache write, fields passed as
`None` retain their previously persisted values — in particular a write of
only `material_labels`/`material_class` leaves `scale_labels`, `scale_class`
and `text_reading` unchanged — and records of other images are untouched. -/
theorem merge_on_write_preserves_unsupplied_fields (cache : Cache) (base : String)
    (sl : Option (List Label)) (sc : Option String)
    (mll : Option (List Label)) (mcc : Option String) (tr : Option TextReading) :
    (sl = none →
      (get_cached_labels (save_cached_labels cache base sl sc mll mcc tr) base).scaleLabels =
        (get_cached_labels cache base).scaleLabels) ∧
    (sc = none →
      (get_cached_labels (save_cached_labels cache base sl sc mll mcc tr) base).scaleClass =
        (get_cached_labels cache base).scaleClass) ∧
    (mll = none →
      (get_cached_labels (save_cached_labels cache base sl sc mll mcc tr) base).materialLabels =
        (get_cached_labels cache base).materialLabels) ∧
    (mcc = none →
      (get_cached_labels (save_cached_labels cache base sl sc mll mcc tr) base).materialClass =
        (get_cached_labels cache base).materialClass) ∧
    (tr = none →
      (get_cached_labels (save_cached_labels cache base sl sc mll mcc tr) base).textReading =
        (get_cached_labels cache base).textReading) ∧
    (∀ b, b ≠ base → save_cached_labels cache base sl sc mll mcc tr b = cache b) := by
  cases sl <;> cases sc <;> cases mll <;> cases mcc <;> cases tr <;>
    refine ⟨?_, ?_, ?_, ?_, ?_, fun b hb => by simp [save_cached_labels, hb]⟩ <;>
    intro h <;>
    simp_all [save_cached_labels, get_cached_labels]

/-- Claim C2 witness: a concrete write of only the material fields over a
record holding scale data and a text reading. -/
theorem merge_on_write_witness :
    (get_cached_labels
        (save_cached_labels
          (fun b => if b = "img" then
            some ⟨"img", [⟨"6_IT_0", 80⟩], some "6_IT_0", [], none, some ⟨"42", false⟩⟩
          else none)
          "img" none none (some [⟨"OCC_scale", 70⟩]) (some "OCC - scale") none)
        "img").scaleLabels = [⟨"6_IT_0", 80⟩] ∧
    (get_cached_labels
        (save_cached_labels
          (fun b => if b = "img" then
            some ⟨"img", [⟨"6_IT_0", 80⟩], some "6_IT_0", [], none, some ⟨"42", false⟩⟩
          else none)
          "img" none none (some [⟨"OCC_scale", 70⟩]) (some "OCC - scale") none)
        "img").scaleClass = some "6_IT_0" ∧
    (get_cached_labels
        (save_cached_labels
          (fun b => if b = "img" then
            some ⟨"img", [⟨"6_IT_0", 80⟩], some "6_IT_0", [], none, some ⟨"42", false⟩⟩
          else none)
          "img" none none (some [⟨"OCC_scale", 70⟩]) (some "OCC - scale") none)
        "img").textReading = some ⟨"42", false⟩ := by
  have h := merge_on_write_preserves_unsupplied_fields
    (fun b => if b = "img" then
      some ⟨"img", [⟨"6_IT_0", 80⟩], some "6_IT_0", [], none, some ⟨"42", false⟩⟩
    else none)
    "img" none none (some [⟨"OCC_scale", 70⟩]) (some "OCC - scale") none
  refine ⟨?_, ?_, ?_⟩
  · rw [h.1 rfl]; decide
  · rw [h.2.1 rfl]; decide
  · rw [h.2.2.2.2.1 rfl]; decide

/-- Claim C4: in the material-stage decision each label is compared against
its own configured threshold: with `cf_thrsd_dict` giving `OCC_scale ↦ 60`
and `OCC_inventory ↦ 55`, the labels `[OCC_scale@58, OCC_inventory@62]`
yield the material-group winner `OCC_inventory` (58 fails its own threshold,
62 clears its own), not the global-max label comparison. -/
theorem per_label_threshold_winner :
    Materials.cf_thrsd_dict.lookup "OCC_scale" = some 60 ∧
    Materials.cf_thrsd_dict.lookup "OCC_inventory" = some 55 ∧
    (Materials.classify_one [⟨"OCC_scale", 58⟩, ⟨"OCC_inventory", 62⟩]).1 =
      some "OCC_inventory" := by
  decide

/-- Claim C5: when no material-group label clears its threshold, the relaxed
fallback pass picks the highest-confidence material-group label anyway: the
single label `OCC_scale@10` under threshold 60 still wins the material
group, and the final material class is not `"unknown"`. -/
theorem relaxed_fallback_winner :
    Materials.cf_thrsd_dict.lookup "OCC_scale" = some 60 ∧
    (Materials.classify_one [⟨"OCC_scale", 10⟩]).1 = some "OCC_scale" ∧
    Materials.classify_name (Materials.classify_one [⟨"OCC_scale", 10⟩]).1
      (Materials.classify_one [⟨"OCC_scale", 10⟩]).2.1
      (Materials.classify_one [⟨"OCC_scale", 10⟩]).2.2 = "OCC - unpacking" ∧
    Materials.classify_name (Materials.classify_one [⟨"OCC_scale", 10⟩]).1
      (Materials.classify_one [⟨"OCC_scale", 10⟩]).2.1
      (Materials.classify_one [⟨"OCC_scale", 10⟩]).2.2 ≠ "unknown" := by
  decide

/-- Claim C7 counterexample: a cached record with the non-`None` material
class `some ""` and scale class `"6_IT_0"` is dispatched to the location
table's directory, not through the material mapping (whose fallback would
be `classified/unknown`): the dispatcher guard is Python truthiness, not
non-`None`-ness. -/
theorem dispatch_empty_material_class_uses_location_table :
    copy_destination Materials.class_to_dir Scales.class_to_dir
      ⟨"img", [], some "6_IT_0", [], some "", none⟩ =
      some "classified/locations/6 IT" ∧
    Scales.class_to_dir.lookup "6_IT_0" = some "classified/locations/6 IT" ∧
    (Materials.class_to_dir.lookup "").getD "classified/unknown" ≠
      "classified/locations/6 IT" := by
  decide

/-- Claim C7 (amended): for every cached record whose `material_class` is
truthy (non-`None` and non-empty), the dispatcher chooses the destination
from the material routing table (with its `classified/unknown` fallback),
never from the location routing table. -/
theorem dispatch_prefers_material_table (rec : ImageRecord) (m : String)
    (hm : rec.materialClass = some m) (hne : m ≠ "") :
    copy_destination Materials.class_to_dir Scales.class_to_dir rec =
      some ((Materials.class_to_dir.lookup m).getD "classified/unknown") := by
  simp [copy_destination, strTruthy, hm, hne]

/-- Claim C7 witness: the record with `material_class "OCC - scale"` and
`scale_class "6_IT_0"` is copied under the material table's directory for
`"OCC - scale"`. -/
theorem dispatch_prefers_material_table_witness :
    copy_destination Materials.class_to_dir Scales.class_to_dir
      ⟨"img", [], some "6_IT_0", [], some "OCC - scale", none⟩ =
      some "classified/5.地面秤重 4070-10 OCC" := by
  rw [dispatch_prefers_material_table
    ⟨"img", [], some "6_IT_0", [], some "OCC - scale", none⟩ "OCC - scale" rfl
    (by decide)]
  decide

/-- Claim C8 counterexample: a record whose only decision is the concrete
but unmapped scale class `"9_FAKE_0"` (not the `"next_stage"` deferral
sentinel) is skipped by the dispatcher, not copied into the `"unknown"`
subdirectory: the unknown-fallback exists only on the material side. -/
theorem dispatch_unmapped_scale_class_skips :
    copy_destination Materials.class_to_dir Scales.class_to_dir
      ⟨"img", [], some "9_FAKE_0", [], none, none⟩ = none ∧
    Scales.class_to_dir.lookup "9_FAKE_0" = none ∧
    "9_FAKE_0" ≠ "next_stage" := by
  decide

/-- Claim C8 (amended): the `"unknown"` fallback for an unmapped concrete
category applies only to the material table — a truthy `material_class`
missing from the material table is copied under `classified/unknown` —
while a record with no truthy `material_class` and a scale class missing
from the location table is skipped (no destination). -/
theorem dispatch_unknown_fallback_material_only :
    (∀ (rec : ImageRecord) (m : String), rec.materialClass = some m → m ≠ "" →
      Materials.class_to_dir.lookup m = none →
      copy_destination Materials.class_to_dir Scales.class_to_dir rec =
        some "classified/unknown") ∧
    (∀ (rec : ImageRecord) (s : String), strTruthy rec.materialClass = false →
      rec.scaleClass = some s →
      Scales.class_to_dir.lookup s = none →
      copy_destination Materials.class_to_dir Scales.class_to_dir rec = none) := by
  constructor
  · intro rec m hm hne hl
    simp [copy_destination, strTruthy, hm, hne, hl]
  · intro rec s hmf hs hl
    simp [copy_destination, hmf, hs, hl]

/-- Claim C8 witness: one concrete record per side — an unmapped truthy
material class goes to `classified/unknown`; an unmapped scale class with
no material class is skipped. -/
theorem dispatch_unknown_fallback_material_only_witness :
    copy_destination Materials.class_to_dir Scales.class_to_dir
      ⟨"a", [], none, [], some "OCC - fancy", none⟩ = some "classified/unknown" ∧
    copy_destination Materials.class_to_dir Scales.class_to_dir
      ⟨"b", [], some "9_ZZ_0", [], none, none⟩ = none := by
  constructor
  · exact dispatch_unknown_fallback_material_only.1
      ⟨"a", [], none, [], some "OCC - fancy", none⟩ "OCC - fancy" rfl (by decide)
      (by decide)
  · exact dispatch_unknown_fallback_material_only.2
      ⟨"b", [], some "9_ZZ_0", [], none, none⟩ "9_ZZ_0" (by decide) rfl (by decide)

/-- Helper for C6: over labels matching neither the location table nor the
device-name prefixes, the scale scan changes nothing except observing
screen-type labels. -/
theorem scales_scan_no_match (labels : List Label) (mc : Int) (sf : Bool)
    (h : ∀ l ∈ labels, Scales.class_to_dir.lookup l.name = none ∧
      Scales.substrMatch l.name Scales.material_devices = false) :
    Scales.classifyScan labels mc none sf =
      (mc, none, sf || labels.any (fun l => pyIn "LCD_SCREEN" l.name)) := by
  induction labels generalizing sf with
  | nil => simp [Scales.classifyScan]
  | cons l rest ih =>
    have hl := h l (by simp)
    have hrest : ∀ x ∈ rest, Scales.class_to_dir.lookup x.name = none ∧
        Scales.substrMatch x.name Scales.material_devices = false :=
      fun x hx => h x (by simp [hx])
    cases hscr : pyIn "LCD_SCREEN" l.name with
    | true =>
      simp [Scales.classifyScan, hscr, ih true hrest]
    | false =>
      by_cases hex : l.name ∈ Scales.extras
      · simp [Scales.classifyScan, hscr, hex, ih sf hrest]
      · simp [Scales.classifyScan, hscr, hex, hl.1, hl.2, ih sf hrest]

/-- Claim C6: a label list containing a screen-type label (name containing
`LCD_SCREEN`) and no label matching the location table or the device-name
prefixes classifies as `"unknown_device"`; a list matching neither the
screen type nor the location/device tables classifies as `"next_stage"`. -/
theorem screen_without_location_is_unknown_device (labels : List Label)
    (hno : ∀ l ∈ labels, Scales.class_to_dir.lookup l.name = none ∧
      Scales.substrMatch l.name Scales.material_devices = false) :
    ((∃ l ∈ labels, pyIn "LCD_SCREEN" l.name = true) →
      Scales.classify_name labels = "unknown_device") ∧
    ((∀ l ∈ labels, pyIn "LCD_SCREEN" l.name = false) →
      Scales.classify_name labels = "next_stage") := by
  have hs := scales_scan_no_match labels 0 false hno
  constructor
  · rintro ⟨l, hl, hscr⟩
    have hany : labels.any (fun l => pyIn "LCD_SCREEN" l.name) = true :=
      List.any_eq_true.mpr ⟨l, hl, hscr⟩
    simp [Scales.classify_name, hs, hany]
  · intro hnone
    have hany : labels.any (fun l => pyIn "LCD_SCREEN" l.name) = false := by
      simp only [List.any_eq_false]
      intro l hl
      simp [hnone l hl]
    simp [Scales.classify_name, hs, hany]

/-- Claim C6 witness: `[LCD_SCREEN_0@90]` (screen, nothing matching the
tables) yields `"unknown_device"`; `[FLOOR@80]` (neither) yields
`"next_stage"`. -/
theorem screen_without_location_witness :
    Scales.classify_name [⟨"LCD_SCREEN_0", 90⟩] = "unknown_device" ∧
    Scales.classify_name [⟨"FLOOR", 80⟩] = "next_stage" := by
  constructor
  · exact (screen_without_location_is_unknown_device [⟨"LCD_SCREEN_0", 90⟩]
      (by decide)).1 ⟨⟨"LCD_SCREEN_0", 90⟩, by decide, by decide⟩
  · exact (screen_without_location_is_unknown_device [⟨"FLOOR", 80⟩]
      (by decide)).2 (by decide)

/-- Helper for C9: a successful first-occurrence split implies substring
containment. -/
theorem pyInL_of_splitOnce {sep l : List Char} {pr : List Char × List Char}
    (h : splitOnce sep l = some pr) : pyInL sep l = true := by
  induction l generalizing pr with
  | nil =>
    by_cases hp : sep.isPrefixOf ([] : List Char)
    · simp [pyInL, hp]
    · simp [splitOnce, hp] at h
  | cons c rest ih =>
    by_cases hp : sep.isPrefixOf (c :: rest)
    · simp [pyInL, hp]
    · simp only [splitOnce, if_neg hp] at h
      rcases hm : splitOnce sep rest with _ | ⟨a, b⟩
      · simp [hm] at h
      · simp [pyInL, hp, ih hm]

/-- Claim C9: the VLM-response parser maps a text whose last non-empty line
is `"123456 - flagged"` to `("123456", true)`, one whose last non-empty
line is `"HSCODE 9876 - None"` to `("9876", false)`, any text without
`" - "` in its last non-empty line to `("", false)`, and in general sets
the flag iff the flag part after the first `" - "` contains `"flagged"`
case-insensitively. -/
theorem parse_text_reading_cases (raw : String) :
    (TextReading0.lastNonEmptyLine raw = "123456 - flagged".data →
      TextReading0.parse_text_reading_output raw = ("123456", true)) ∧
    (TextReading0.lastNonEmptyLine raw = "HSCODE 9876 - None".data →
      TextReading0.parse_text_reading_output raw = ("9876", false)) ∧
    (pyInL " - ".data (TextReading0.lastNonEmptyLine raw) = false →
      TextReading0.parse_text_reading_output raw = ("", false)) ∧
    (∀ l r, splitOnce " - ".data (TextReading0.lastNonEmptyLine raw) = some (l, r) →
      (TextReading0.parse_text_reading_output raw).2 =
        pyInL "flagged".data ((pyStripL r).map Char.toLower)) := by
  by_cases hraw : raw = ""
  · subst hraw
    refine ⟨fun h => absurd h (by decide), fun h => absurd h (by decide),
      fun _ => rfl, fun l r h => ?_⟩
    rw [show splitOnce " - ".data (TextReading0.lastNonEmptyLine "") = none from by decide]
      at h
    exact Option.noConfusion h
  · have hp : TextReading0.parse_text_reading_output raw =
        TextReading0.parseLast (TextReading0.lastNonEmptyLine raw) := by
      simp [TextReading0.parse_text_reading_output, hraw]
    refine ⟨fun h => ?_, fun h => ?_, fun h => ?_, fun l r h => ?_⟩
    · rw [hp, h]; decide
    · rw [hp, h]; decide
    · rw [hp]; simp [TextReading0.parseLast, h]
    · rw [hp]
      have hin := pyInL_of_splitOnce h
      simp [TextReading0.parseLast, hin, h]

/-- Claim C9 witness: the parser applied to four concrete VLM responses. -/
theorem parse_text_reading_cases_witness :
    TextReading0.parse_text_reading_output "reasoning\n123456 - flagged" =
      ("123456", true) ∧
    TextReading0.parse_text_reading_output "step\nHSCODE 9876 - None" =
      ("9876", false) ∧
    TextReading0.parse_text_reading_output "no separator here" = ("", false) ∧
    (TextReading0.parse_text_reading_output "a - FLAGGED!").2 = true := by
  refine ⟨(parse_text_reading_cases "reasoning\n123456 - flagged").1 (by decide),
    (parse_text_reading_cases "step\nHSCODE 9876 - None").2.1 (by decide),
    (parse_text_reading_cases "no separator here").2.2.1 (by decide), ?_⟩
  rw [(parse_text_reading_cases "a - FLAGGED!").2.2.2 "a".data "FLAGGED!".data
    (by decide)]
  decide

/-- Helper for C10: the classify-stage extension filter rejects any path
ending in `.jpeg` (any letter case), since it lowercases only the last four
characters and `"jpeg"` is not among the accepted endings. -/
theorem extOk_jpeg_false (stem ext p : String) (hp : p = stem ++ ext)
    (hlow : pyLower ext = ".jpeg") : extOk p = false := by
  have hdata : ext.data.map Char.toLower = (".jpeg" : String).data :=
    congrArg String.data hlow
  have hlen : ext.data.length = 5 := by
    have := congrArg List.length hdata
    simpa using this
  have h4 : last4 p = String.mk (ext.data.drop 1) := by
    subst hp
    unfold last4
    congr 1
    rw [String.data_append, List.length_append, hlen,
      show stem.data.length + 5 - 4 = stem.data.length + 1 from by omega,
      List.drop_append]
  have hlow4 : pyLower (last4 p) = "jpeg" := by
    rw [h4]
    unfold pyLower
    congr 1
    show (ext.data.drop 1).map Char.toLower = _
    rw [List.map_drop, hdata]
    decide
  unfold extOk
  rw [hlow4]
  decide

/-- Claim C10: a path whose filename ends in `.jpeg` (any letter case) is
skipped entirely by `classify_scales` and `classify_materials` — no remote
call, no cache write, no forwarded entry, no contribution to the progress
total — while the enrichment/dispatcher image resolver does find a source
image stored with a `.jpeg` extension. -/
theorem jpeg_paths_skipped_by_classify_stages (stem ext p : String)
    (hp : p = stem ++ ext) (hlow : pyLower ext = ".jpeg") :
    extOk p = false ∧
    (∀ (svc : String → Except String (List Label)) (cache : Cache)
        (dev : String → Option String) (rest : List String),
      Scales.classify_scales svc (p :: rest) cache dev =
        Scales.classify_scales svc rest cache dev) ∧
    (∀ (svc : String → Except String (List Label)) (devm : String → Option String)
        (cache : Cache) (rest : List String),
      Materials.classify_materials svc devm (p :: rest) cache =
        Materials.classify_materials svc devm rest cache) ∧
    (∀ rest : List String, progressTotal (p :: rest) = progressTotal rest) ∧
    (∀ (fs : String → Bool) (folder base : String),
      fs (folder ++ "/" ++ base ++ ".jpg") = false →
      fs (folder ++ "/" ++ base ++ ".jpeg") = true →
      resolve_image_path fs folder base = some (folder ++ "/" ++ base ++ ".jpeg")) := by
  have hext := extOk_jpeg_false stem ext p hp hlow
  refine ⟨hext, ?_, ?_, ?_, ?_⟩
  · intro svc cache dev rest
    simp [Scales.classify_scales, hext]
  · intro svc devm cache rest
    simp [Materials.classify_materials, hext]
  · intro rest
    simp [progressTotal, List.filter_cons, hext]
  · intro fs folder base h1 h2
    simp [resolve_image_path, List.findSome?, h1, h2]

/-- Claim C10 witness: `"IMG1.JPEG"` is rejected by the stage filter,
skipped by the scale stage, excluded from the progress total, and still
resolvable by the `.jpeg` extension guess. -/
theorem jpeg_paths_skipped_witness :
    extOk "IMG1.JPEG" = false ∧
    Scales.classify_scales (fun _ => Except.error "e") ["IMG1.JPEG"]
        (fun _ => none) (fun _ => none) =
      Scales.classify_scales (fun _ => Except.error "e") []
        (fun _ => none) (fun _ => none) ∧
    progressTotal ["IMG1.JPEG"] = progressTotal [] ∧
    resolve_image_path (fun q => q == "in/IMG1.jpeg") "in" "IMG1" =
      some "in/IMG1.jpeg" := by
  have h := jpeg_paths_skipped_by_classify_stages "IMG1" ".JPEG" "IMG1.JPEG" rfl
    (by decide)
  exact ⟨h.1, h.2.1 _ _ _ [], h.2.2.2.1 [],
    h.2.2.2.2 _ "in" "IMG1" (by decide) (by decide)⟩

/-- Claim C3: when the remote label-service call for one image raises, that
image's cache record is left untouched, the image is absent from the
stage's forwarded outputs and device table, the stage's result on the rest
of the list is exactly as if the image had never been offered (so the next
image is still processed and the exception never escapes), and the failed
path is only recorded as an attempted call — for `classify_scales` and for
`classify_materials` alike. -/
theorem service_failure_skips_image (svc svc2 : String → Except String (List Label))
    (devm : String → Option String) (cache : Cache) (dev : String → Option String)
    (p : String) (rest : List String) (e e2 : String)
    (hext : extOk p = true)
    (hsl : (get_cached_labels cache (pathBase p)).scaleLabels = [])
    (herr : svc p = Except.error e)
    (hml : (get_cached_labels cache (pathBase p)).materialLabels = [])
    (herr2 : svc2 p = Except.error e2) :
    Scales.classify_scales svc (p :: rest) cache dev =
      ⟨(Scales.classify_scales svc rest cache dev).cache,
        (Scales.classify_scales svc rest cache dev).dev,
        (Scales.classify_scales svc rest cache dev).toNextStage,
        p :: (Scales.classify_scales svc rest cache dev).calls⟩ ∧
    Materials.classify_materials svc2 devm (p :: rest) cache =
      ⟨(Materials.classify_materials svc2 devm rest cache).cache,
        p :: (Materials.classify_materials svc2 devm rest cache).calls⟩ := by
  constructor
  · simp [Scales.classify_scales, hext, hsl, herr]
  · simp [Materials.classify_materials, hext, hml, herr2]

/-- Claim C3 witness: a concrete always-failing service on a one-element
file list leaves the empty cache empty, forwards nothing, and records a
single attempted call in each stage. -/
theorem service_failure_skips_image_witness :
    Scales.classify_scales (fun _ => Except.error "boom") ["a.jpg"]
        (fun _ => none) (fun _ => none) =
      ⟨(Scales.classify_scales (fun _ => Except.error "boom") []
          (fun _ => none) (fun _ => none)).cache,
        (Scales.classify_scales (fun _ => Except.error "boom") []
          (fun _ => none) (fun _ => none)).dev,
        (Scales.classify_scales (fun _ => Except.error "boom") []
          (fun _ => none) (fun _ => none)).toNextStage,
        "a.jpg" :: (Scales.classify_scales (fun _ => Except.error "boom") []
          (fun _ => none) (fun _ => none)).calls⟩ ∧
    Materials.classify_materials (fun _ => Except.error "boom")
        (fun _ => none) ["a.jpg"] (fun _ => none) =
      ⟨(Materials.classify_materials (fun _ => Except.error "boom")
          (fun _ => none) [] (fun _ => none)).cache,
        "a.jpg" :: (Materials.classify_materials (fun _ => Except.error "boom")
          (fun _ => none) [] (fun _ => none)).calls⟩ :=
  service_failure_skips_image (fun _ => Except.error "boom")
    (fun _ => Except.error "boom") (fun _ => none) (fun _ => none) (fun _ => none)
    "a.jpg" [] "boom" "boom" (by decide) rfl rfl rfl rfl

/-- Helper for C1: rewriting `scale_class` to the value it already holds is
a cache no-op. -/
theorem save_scale_class_rewrite_noop (cache : Cache) (base : String)
    (r : ImageRecord) (cls : String)
    (hr : cache base = some r) (hcls : r.scaleClass = some cls) :
    save_cached_labels cache base none (some cls) none none none = cache := by
  funext b
  by_cases hb : b = base
  · subst hb
    simp only [save_cached_labels, get_cached_labels, hr, if_pos rfl]
    rw [show some cls = r.scaleClass from hcls.symm]
  · simp [save_cached_labels, hb]


/-- Helper for C1: every path forwarded by the scale stage comes from the
input list and passed the extension filter. -/
theorem scales_forward_mem (svc : String → Except String (List Label))
    (files : List String) :
    ∀ (cache : Cache) (dev : String → Option String)
      (q : String), q ∈ (Scales.classify_scales svc files cache dev).toNextStage →
      q ∈ files ∧ extOk q = true := by
  induction files with
  | nil => intro cache dev q hq; simp [Scales.classify_scales] at hq
  | cons p rest ih =>
    intro cache dev q hq
    cases hext : extOk p with
    | false =>
      rw [show Scales.classify_scales svc (p :: rest) cache dev =
          Scales.classify_scales svc rest cache dev from by
        simp [Scales.classify_scales, hext]] at hq
      have := ih cache dev q hq
      exact ⟨by simp [this.1], this.2⟩
    | true =>
      simp only [Scales.classify_scales, hext, Bool.true_eq_false, if_false] at hq
      split at hq
      · simp only [List.mem_append] at hq
        rcases hq with hq | hq
        · have : q = p := by
            split at hq <;> simp_all
          subst this
          exact ⟨by simp, hext⟩
        · have := ih _ _ q hq
          exact ⟨by simp [this.1], this.2⟩
      · rcases hsvc : svc p with e | labels <;> rw [hsvc] at hq
        · have := ih cache dev q hq
          exact ⟨by simp [this.1], this.2⟩
        · simp only [List.mem_append] at hq
          rcases hq with hq | hq
          · have : q = p := by
              split at hq <;> simp_all
            subst this
            exact ⟨by simp, hext⟩
          · have := ih _ _ q hq
            exact ⟨by simp [this.1], this.2⟩

/-- Helper for C1: when every offered image has non-empty cached
`scale_labels` whose recorded `scale_class` matches the class recomputed
from them (as any completed first run leaves them), the scale stage leaves
the cache pointwise unchanged and issues no remote call. -/
theorem scales_cached_run (svc : String → Except String (List Label))
    (files : List String) (cache : Cache) (dev : String → Option String)
    (H : ∀ p ∈ files, extOk p = true →
      (get_cached_labels cache (pathBase p)).scaleLabels ≠ [] ∧
      (get_cached_labels cache (pathBase p)).scaleClass =
        some (Scales.classify_name (get_cached_labels cache (pathBase p)).scaleLabels)) :
    (Scales.classify_scales svc files cache dev).cache = cache ∧
    (Scales.classify_scales svc files cache dev).calls = [] := by
  induction files generalizing dev with
  | nil => simp [Scales.classify_scales]
  | cons p rest ih =>
    have Hrest : ∀ q ∈ rest, extOk q = true →
        (get_cached_labels cache (pathBase q)).scaleLabels ≠ [] ∧
        (get_cached_labels cache (pathBase q)).scaleClass =
          some (Scales.classify_name (get_cached_labels cache (pathBase q)).scaleLabels) :=
      fun q hq => H q (by simp [hq])
    cases hext : extOk p with
    | false =>
      simp only [Scales.classify_scales, hext]
      exact ih dev Hrest
    | true =>
      obtain ⟨h1, h2⟩ := H p (by simp) hext
      obtain ⟨r, hr⟩ : ∃ r, cache (pathBase p) = some r := by
        cases hc : cache (pathBase p) with
        | none =>
          exact absurd (by simp [get_cached_labels, hc, zeroRecord]) h1
        | some r => exact ⟨r, rfl⟩
      have hget : get_cached_labels cache (pathBase p) = r := by
        simp [get_cached_labels, hr]
      rw [hget] at h1 h2
      have hnoop := save_scale_class_rewrite_noop cache (pathBase p) r
        (Scales.classify_name r.scaleLabels) hr h2
      simp only [Scales.classify_scales, hext, Bool.true_eq_false, if_false, hget,
        if_pos h1, hnoop]
      exact ih _ Hrest

/-- Helper for C1: when every offered image has non-empty cached
`material_labels`, the material stage is a pure pass (no write, no call). -/
theorem materials_cached_run (svc : String → Except String (List Label))
    (devm : String → Option String) (files : List String) (cache : Cache)
    (H : ∀ p ∈ files, extOk p = true →
      (get_cached_labels cache (pathBase p)).materialLabels ≠ []) :
    Materials.classify_materials svc devm files cache = ⟨cache, []⟩ := by
  induction files with
  | nil => simp [Materials.classify_materials]
  | cons p rest ih =>
    have Hrest : ∀ q ∈ rest, extOk q = true →
        (get_cached_labels cache (pathBase q)).materialLabels ≠ [] :=
      fun q hq => H q (by simp [hq])
    cases hext : extOk p with
    | false =>
      simp only [Materials.classify_materials, hext]
      exact ih Hrest
    | true =>
      have h1 := H p (by simp) hext
      simp only [Materials.classify_materials, hext, Bool.true_eq_false, if_false,
        if_pos h1]
      exact ih Hrest

/-- Helper for C1: when every cached basename either already has
`text_reading`, or has no target label, or is not resolvable to a source
image, the enrichment stage is a pure pass (no write, no VLM call). -/
theorem text_skip_run (vlm : String → Except String String) (fs : String → Bool)
    (folder : String) (basenames : List String) (cache : Cache)
    (H : ∀ b ∈ basenames, (get_cached_labels cache b).textReading ≠ none ∨
      TextReading0.has_target_label (get_cached_labels cache b) = false ∨
      resolve_image_path fs folder b = none) :
    TextReading0.add_text_reading_to_jsons vlm fs folder basenames cache = ⟨cache, []⟩ := by
  induction basenames with
  | nil => simp [TextReading0.add_text_reading_to_jsons]
  | cons b rest ih =>
    have Hrest : ∀ q ∈ rest, (get_cached_labels cache q).textReading ≠ none ∨
        TextReading0.has_target_label (get_cached_labels cache q) = false ∨
        resolve_image_path fs folder q = none :=
      fun q hq => H q (by simp [hq])
    cases htr : (get_cached_labels cache b).textReading with
    | some v =>
      simp only [TextReading0.add_text_reading_to_jsons, htr]
      rw [if_pos (by simp : (some v : Option TextReading) ≠ none)]
      exact ih Hrest
    | none =>
      rcases H b (by simp) with hd | hd | hd
      · exact absurd htr hd
      · simp only [TextReading0.add_text_reading_to_jsons, htr, ne_eq,
          not_true_eq_false, if_false, hd, if_pos rfl]
        exact ih Hrest
      · simp only [TextReading0.add_text_reading_to_jsons, htr, ne_eq,
          not_true_eq_false, if_false]
        cases hht : TextReading0.has_target_label (get_cached_labels cache b) with
        | false =>
          rw [if_pos rfl]
          exact ih Hrest
        | true =>
          rw [if_neg (by simp), hd]
          exact ih Hrest

/-- Claim C1 (amended): a second full pipeline run over the same file list
and output root, with the cache left intact from a completed first run,
leaves every cache record unchanged (hence byte-identical files, the JSON
serialisation being deterministic) and issues no remote label-service or
VLM call — provided every cached `*_labels` list is non-empty, i.e. the
first-run service calls returned at least one label per image; the stages
reuse cached labels exactly for images whose `*_labels` field is a
non-empty list, and the enrichment stage skips every image whose
`text_reading` is already non-`None` (or that it would not process). -/
theorem rerun_idempotent_no_calls
    (svc1 svc2 : String → Except String (List Label))
    (vlm : String → Except String String) (fs : String → Bool)
    (folder : String) (files basenames : List String) (cache : Cache)
    (H1 : ∀ p ∈ files, extOk p = true →
      (get_cached_labels cache (pathBase p)).scaleLabels ≠ [] ∧
      (get_cached_labels cache (pathBase p)).scaleClass =
        some (Scales.classify_name (get_cached_labels cache (pathBase p)).scaleLabels))
    (H2 : ∀ p ∈ files, extOk p = true →
      (get_cached_labels cache (pathBase p)).materialLabels ≠ [])
    (H3 : ∀ b ∈ basenames, (get_cached_labels cache b).textReading ≠ none ∨
      TextReading0.has_target_label (get_cached_labels cache b) = false ∨
      resolve_image_path fs folder b = none) :
    (run_pipeline svc1 svc2 vlm fs folder files basenames cache).cache = cache ∧
    (run_pipeline svc1 svc2 vlm fs folder files basenames cache).scaleCalls = [] ∧
    (run_pipeline svc1 svc2 vlm fs folder files basenames cache).materialCalls = [] ∧
    (run_pipeline svc1 svc2 vlm fs folder files basenames cache).vlmCalls = [] := by
  obtain ⟨hsc, hscalls⟩ := scales_cached_run svc1 files cache (fun _ => none) H1
  have hm : Materials.classify_materials svc2
      (Scales.classify_scales svc1 files cache (fun _ => none)).dev
      (Scales.classify_scales svc1 files cache (fun _ => none)).toNextStage
      (Scales.classify_scales svc1 files cache (fun _ => none)).cache = ⟨cache, []⟩ := by
    rw [hsc]
    exact materials_cached_run _ _ _ cache
      (fun p hp hext =>
        H2 p (scales_forward_mem svc1 files cache (fun _ => none) p hp).1 hext)
  have ht := text_skip_run vlm fs folder basenames cache H3
  simp only [run_pipeline]
  simp [hm, ht, hscalls]

/-- Claim C1 witness: a one-image cache exactly as a completed first run
leaves it (non-empty label lists, consistent `scale_class`, `text_reading`
set); the re-run changes nothing and calls no remote service. -/
theorem rerun_idempotent_witness :
    (run_pipeline (fun _ => Except.error "down") (fun _ => Except.error "down")
      (fun _ => Except.error "down") (fun _ => false) "in" ["a.jpg"] ["a"]
      (fun b => if b = "a" then
        some ⟨"a", [⟨"6_IT_0", 80⟩], some "6_IT_0", [⟨"OCC_scale", 70⟩],
          some "OCC - unpacking", some ⟨"42", false⟩⟩
      else none)).cache =
      (fun b => if b = "a" then
        some ⟨"a", [⟨"6_IT_0", 80⟩], some "6_IT_0", [⟨"OCC_scale", 70⟩],
          some "OCC - unpacking", some ⟨"42", false⟩⟩
      else none) ∧
    (run_pipeline (fun _ => Except.error "down") (fun _ => Except.error "down")
      (fun _ => Except.error "down") (fun _ => false) "in" ["a.jpg"] ["a"]
      (fun b => if b = "a" then
        some ⟨"a", [⟨"6_IT_0", 80⟩], some "6_IT_0", [⟨"OCC_scale", 70⟩],
          some "OCC - unpacking", some ⟨"42", false⟩⟩
      else none)).scaleCalls = [] ∧
    (run_pipeline (fun _ => Except.error "down") (fun _ => Except.error "down")
      (fun _ => Except.error "down") (fun _ => false) "in" ["a.jpg"] ["a"]
      (fun b => if b = "a" then
        some ⟨"a", [⟨"6_IT_0", 80⟩], some "6_IT_0", [⟨"OCC_scale", 70⟩],
          some "OCC - unpacking", some ⟨"42", false⟩⟩
      else none)).materialCalls = [] ∧
    (run_pipeline (fun _ => Except.error "down") (fun _ => Except.error "down")
      (fun _ => Except.error "down") (fun _ => false) "in" ["a.jpg"] ["a"]
      (fun b => if b = "a" then
        some ⟨"a", [⟨"6_IT_0", 80⟩], some "6_IT_0", [⟨"OCC_scale", 70⟩],
          some "OCC - unpacking", some ⟨"42", false⟩⟩
      else none)).vlmCalls = [] :=
  rerun_idempotent_no_calls (fun _ => Except.error "down")
    (fun _ => Except.error "down") (fun _ => Except.error "down") (fun _ => false)
    "in" ["a.jpg"] ["a"]
    (fun b => if b = "a" then
      some ⟨"a", [⟨"6_IT_0", 80⟩], some "6_IT_0", [⟨"OCC_scale", 70⟩],
        some "OCC - unpacking", some ⟨"42", false⟩⟩
    else none)
    (by decide) (by decide) (by decide)

/-- Claim C1 counterexample: an image whose first-run service calls return
an empty label list is fully processed in the first run (its record is
written with `scale_class` and `material_class`), yet the second run over
the intact cache issues the scale-stage and material-stage remote calls
for it again, because both stages test the cached lists for truthiness and
an empty list is falsy. -/
theorem rerun_recalls_service_on_empty_labels :
    (run_pipeline (fun _ => Except.ok []) (fun _ => Except.ok [])
      (fun _ => Except.error "x") (fun _ => false) "in" ["a.jpg"] ["a"]
      (fun _ => none)).cache "a" =
      some ⟨"a", [], some "next_stage", [], some "unknown", none⟩ ∧
    (run_pipeline (fun _ => Except.ok []) (fun _ => Except.ok [])
      (fun _ => Except.error "x") (fun _ => false) "in" ["a.jpg"] ["a"]
      ((run_pipeline (fun _ => Except.ok []) (fun _ => Except.ok [])
        (fun _ => Except.error "x") (fun _ => false) "in" ["a.jpg"] ["a"]
        (fun _ => none)).cache)).scaleCalls = ["a.jpg"] ∧
    (run_pipeline (fun _ => Except.ok []) (fun _ => Except.ok [])
      (fun _ => Except.error "x") (fun _ => false) "in" ["a.jpg"] ["a"]
      ((run_pipeline (fun _ => Except.ok []) (fun _ => Except.ok [])
        (fun _ => Except.error "x") (fun _ => false) "in" ["a.jpg"] ["a"]
        (fun _ => none)).cache)).materialCalls = ["a.jpg"] := by
  decide
